import Mathlib

/-!
Verification development for the `live_logs_handler` repository
(`src/live_logs_handler/handler.py`): a shallow embedding of the
thread-safe structured logger — record normalization (`_log`), the bounded
queue (`Queue.put_nowait`), the lifecycle operations (`start`, `stop`),
the stream interceptor (`PrintCapture.write`), the writer-loop iteration
(`_log_writer`), and the module-level bootstrap (`get_logger`,
`start_logging`) — together with theorems settling the specification
claims about them.
-/

namespace LiveLogs

/-- A scalar field value of a log entry (Python dict values used by the
handler: strings, integers, booleans). -/
inductive Value where
  | str (s : String)
  | nat (n : Nat)
  | bool (b : Bool)
  deriving DecidableEq, Repr

/-- A log entry: a Python `dict` modelled as an insertion-ordered
association list of field name to value. -/
abbrev Dict := List (String × Value)

/-- Python `d[key]` lookup (first binding wins; `Dict.set` keeps keys
unique positionally, matching dict semantics). -/
def Dict.get : Dict → String → Option Value
  | [], _ => none
  | (k, v) :: rest, key => if k = key then some v else Dict.get rest key

/-- Python `d[key] = v`: overwrite in place keeping the key's original
insertion position, else append at the end. -/
def Dict.set : Dict → String → Value → Dict
  | [], key, v => [(key, v)]
  | (k, w) :: rest, key, v =>
      if k = key then (k, v) :: rest else (k, w) :: Dict.set rest key v

/-- Execution context sampled inside `_log`: `datetime.utcnow().isoformat()
+ "Z"`, `threading.get_ident()`, `threading.current_thread().name`. -/
structure Ctx where
  now : String
  threadId : Nat
  threadName : String
  deriving DecidableEq, Repr

/-- The `current_cell` record built by `_pre_run_cell`. -/
structure Cell where
  cellNumber : Nat
  cellId : Option String
  deriving DecidableEq, Repr

/-- The `queue.Queue(maxsize=buffer_size)` holding log entries. -/
structure BQueue where
  items : List Dict
  maxsize : Nat
  deriving DecidableEq, Repr

/-- Python `queue.Queue.put_nowait`: raises `Full` exactly when `maxsize > 0` and
the queue already holds `maxsize` items; otherwise appends. -/
def BQueue.putNowait (q : BQueue) (e : Dict) : Except Unit BQueue :=
  if 0 < q.maxsize ∧ q.maxsize ≤ q.items.length then .error ()
  else .ok { q with items := q.items ++ [e] }

/-- The mutable state of a `ThreadSafeStructuredLogger` instance.
`writerSpawns` counts `threading.Thread(...).start()` calls made by
`start`; `acceptedCount` counts entries successfully enqueued by `_log`
(bookkeeping for stating claims; the source keeps no such counter). -/
structure LoggerState where
  logFile : String
  includeCellInfo : Bool
  capturePrint : Bool
  queue : BQueue
  running : Bool
  writerSpawns : Nat
  currentCell : Option Cell
  cellCount : Nat
  acceptedCount : Nat
  deriving DecidableEq, Repr

/-- Constructor `ThreadSafeStructuredLogger.__init__` with the given `log_file` and the
default `buffer_size=1000`, `include_cell_info=True`, `capture_print=False`. -/
def initLogger (log_file : String) : LoggerState :=
  { logFile := log_file
    includeCellInfo := true
    capturePrint := false
    queue := { items := [], maxsize := 1000 }
    running := false
    writerSpawns := 0
    currentCell := none
    cellCount := 0
    acceptedCount := 0 }

namespace ThreadSafeStructuredLogger

/-- The field-stamping portion of `_log` (handler.py lines 246-255): the
entry dict is updated in place with `timestamp`, `thread_id`,
`thread_name`, and, when `include_cell_info` holds and a current cell
exists, `cell_number` and possibly `cell_id`. -/
def stampEntry (ctx : Ctx) (includeCellInfo : Bool) (currentCell : Option Cell)
    (entry : Dict) : Dict :=
  let e := ((entry.set "timestamp" (.str ctx.now)).set "thread_id"
      (.nat ctx.threadId)).set "thread_name" (.str ctx.threadName)
  if includeCellInfo then
    match currentCell with
    | some c =>
        let e2 := e.set "cell_number" (.nat c.cellNumber)
        match c.cellId with
        | some cid => e2.set "cell_id" (.str cid)
        | none => e2
    | none => e
  else e

/-- Method `ThreadSafeStructuredLogger._log`. Returns the new logger state paired
with the entry dict as the caller sees it after the call: the source
mutates the caller's dict in place and enqueues that same object, so the
second component is both the enqueued record and the caller's mapping
after `_log` returns. A `Full` exception from `put_nowait` is swallowed
(`except: pass`). -/
def logSubmit (st : LoggerState) (ctx : Ctx) (entry : Dict) :
    LoggerState × Dict :=
  if st.running = false then (st, entry)
  else
    let e := stampEntry ctx st.includeCellInfo st.currentCell entry
    match st.queue.putNowait e with
    | .ok q => ({ st with queue := q, acceptedCount := st.acceptedCount + 1 }, e)
    | .error _ => (st, e)

/-- Method `ThreadSafeStructuredLogger.log(level, message, **kwargs)`: builds
`{"severity_text": level.upper(), "body": message, **kwargs}` (later
`kwargs` keys override earlier literal keys, as in a Python dict display)
and calls `_log`. -/
def log (st : LoggerState) (ctx : Ctx) (level : String) (message : String)
    (kwargs : Dict) : LoggerState × Dict :=
  let entry : Dict :=
    [("severity_text", .str level.toUpper), ("body", .str message)]
  let entry := kwargs.foldl (fun d kv => d.set kv.1 kv.2) entry
  logSubmit st ctx entry

/-- The error vocabulary of the specification's `start` contract. The
source never constructs it: that absence is part of what the theorems
establish. -/
inductive StartError where
  | alreadyRunning
  deriving DecidableEq, Repr

/-- Observable outcome of a normal `start` return: the resulting state and
the strings printed to the notebook. -/
structure StartOut where
  state : LoggerState
  printed : List String
  deriving DecidableEq, Repr

/-- The startup entry literal built inside `start` (handler.py 98-103). -/
def startupEntry (st : LoggerState) (ctx : Ctx) : Dict :=
  [("severity_text", .str "INFO"), ("body", .str "Notebook logger started"),
   ("timestamp", .str ctx.now), ("log_file", .str st.logFile)]

/-- Method `ThreadSafeStructuredLogger.start`. When already running it prints
"Logger already running" and returns normally. Otherwise it sets
`running`, spawns the writer thread (counted by `writerSpawns`; the file
open happens later inside that thread, see `logWriterOpen`), submits the
startup entry and prints. `fileOpenable` models whether the target file
can be opened; `start` never consults it. -/
def start (st : LoggerState) (ctx : Ctx) (fileOpenable : Bool) :
    Except StartError StartOut :=
  if st.running then .ok ⟨st, ["Logger already running"]⟩
  else
    let st1 := { st with running := true, writerSpawns := st.writerSpawns + 1 }
    let (st2, _) := logSubmit st1 ctx (startupEntry st ctx)
    .ok ⟨st2, ["Structured logging started: " ++ st.logFile]⟩

/-- How the writer thread begins: `_log_writer` opens `self.log_file` in
append mode with no surrounding `try`; if the open fails the exception
propagates out of the thread's target function, crashing the background
thread — it is never seen by the caller of `start`. -/
inductive WriterCrash where
  | openFailed
  deriving DecidableEq, Repr

/-- The `open(self.log_file, 'a')` at the top of `_log_writer`, executed in
the spawned writer thread. -/
def logWriterOpen (fileOpenable : Bool) : Except WriterCrash Unit :=
  if fileOpenable then .ok () else .error .openFailed

/-- Observable outcome of a `stop` call: resulting state, printed strings,
and the shutdown record as submitted to the queue (if any). -/
structure StopOut where
  state : LoggerState
  printed : List String
  shutdownSubmitted : Option Dict
  deriving DecidableEq, Repr

/-- The shutdown entry literal built inside `stop` (handler.py 114-119):
note its count field is `total_cells = self.cell_count`. -/
def shutdownEntry (st : LoggerState) (ctx : Ctx) : Dict :=
  [("severity_text", .str "INFO"), ("body", .str "Notebook logger stopped"),
   ("total_cells", .nat st.cellCount), ("timestamp", .str ctx.now)]

/-- Method `ThreadSafeStructuredLogger.stop`: no-op when not running; otherwise
submits the shutdown entry (while still running), clears `running`,
removes the handler, restores streams, and calls `log_queue.join()`
(the blocking drain is modelled by the `Sys` transition system below). -/
def stop (st : LoggerState) (ctx : Ctx) : StopOut :=
  if st.running = false then ⟨st, [], none⟩
  else
    let (st1, rec) := logSubmit st ctx (shutdownEntry st ctx)
    let st2 := { st1 with running := false }
    ⟨st2, ["Structured logging stopped"], some rec⟩

end ThreadSafeStructuredLogger

/-- Python's whitespace set for `str.strip` / `str.rstrip`:
space, tab, newline, carriage return, vertical tab, form feed. -/
def pyIsSpace (c : Char) : Bool :=
  c = ' ' ∨ c = '\t' ∨ c = '\n' ∨ c = '\x0d' ∨ c = '\x0b' ∨ c = '\x0c'

/-- Python `text.rstrip()`. -/
def pyRstrip (s : String) : String :=
  ⟨(s.data.reverse.dropWhile pyIsSpace).reverse⟩

/-- Python `text.strip()`. -/
def pyStrip (s : String) : String :=
  ⟨((s.data.dropWhile pyIsSpace).reverse.dropWhile pyIsSpace).reverse⟩

namespace PrintCapture

/-- Observable effects of one `PrintCapture.write(text)` call: the texts
forwarded to the original stream, the number of flushes of the original
stream, the entries passed to `_log`, and the returned length. -/
structure WriteOut where
  forwarded : List String
  flushed : Nat
  submitted : List Dict
  ret : Nat
  deriving DecidableEq, Repr

/-- Method `PrintCapture.write` (handler.py 182-197): forward the text verbatim
to the original stream and flush it; when `text and text.strip()` is
truthy, submit exactly one entry with severity ERROR for the stderr
wrapper and INFO otherwise, body `text.rstrip()`, `source = "print"`,
`stream = self.stream_name`, and a timestamp; return `len(text)`. -/
def write (streamName : String) (ctx : Ctx) (text : String) : WriteOut :=
  let submitted : List Dict :=
    if text ≠ "" ∧ pyStrip text ≠ "" then
      [[("severity_text",
          Value.str (if streamName = "stderr" then "ERROR" else "INFO")),
        ("body", Value.str (pyRstrip text)),
        ("source", Value.str "print"),
        ("stream", Value.str streamName),
        ("timestamp", Value.str ctx.now)]]
    else []
  { forwarded := [text], flushed := 1, submitted := submitted,
    ret := text.length }

end PrintCapture

/-- Result of one attempt to write-and-flush a dequeued entry to the file
inside `_log_writer`'s loop body. -/
inductive IOResult where
  | ok
  | ioError
  deriving DecidableEq, Repr

/-- Observable outcome of one `_log_writer` loop iteration that has
dequeued `entry` and attempts to write it. -/
structure WriterIterOut where
  crashed : Bool
  diagnostics : List String
  written : List Dict
  taskDoneCalled : Bool
  deriving DecidableEq, Repr

/-- The `_log_writer` loop body after a successful `get` (handler.py
268-280): on success the entry is serialized, written, flushed and
`task_done` is called; any exception is swallowed by the bare
`except: continue` — the loop continues, nothing is printed to any
diagnostic stream, and `task_done` is not called for that entry. -/
def writerIterWrite (entry : Dict) (res : IOResult) : WriterIterOut :=
  match res with
  | .ok =>
      { crashed := false, diagnostics := [], written := [entry],
        taskDoneCalled := true }
  | .ioError =>
      { crashed := false, diagnostics := [], written := [],
        taskDoneCalled := false }

/-- Python `os.getenv(name, "")` given the variable's value (`none` = unset). -/
def pyGetenv (envVal : Option String) (dflt : String) : String :=
  envVal.getD dflt

/-- Function `get_logger(log_file, **kwargs)`: return the module-level singleton if
it exists, else construct a `ThreadSafeStructuredLogger(log_file)` (with
default keyword options). -/
def get_logger (existing : Option LoggerState) (log_file : String) :
    LoggerState :=
  match existing with
  | some l => l
  | none => initLogger log_file

/-- Function `start_logging(log_file, **kwargs)` (handler.py 304-314): read
`LIVE_LOGS_FILE_PATH` with default `""`; if empty, print a message and
return `None` without touching the singleton; otherwise call
`get_logger(json_file_path)` and `logger.start()`. The `log_file`
parameter is never read. -/
def start_logging (envVal : Option String) (log_file : String)
    (existing : Option LoggerState) (ctx : Ctx) :
    Option (Except ThreadSafeStructuredLogger.StartError
      ThreadSafeStructuredLogger.StartOut) :=
  let jsonFilePath := pyGetenv envVal ""
  if jsonFilePath = "" then none
  else
    let logger := get_logger existing jsonFilePath
    some (ThreadSafeStructuredLogger.start logger ctx true)

/-! ## Interleaving model of `stop` and the writer thread

`stop` signals shutdown by clearing `running` and then blocks in
`log_queue.join()`, which returns once `unfinished_tasks` reaches zero
(`put_nowait` increments it, `task_done` decrements it). The writer loop
(`while self.running or not self.log_queue.empty()`) keeps running until
it observes `running = False` and an empty queue. The transition system
below interleaves the stop-calling thread, producer threads and the
writer thread; entries are abstracted to their count. -/

/-- The default queue capacity (`buffer_size=1000`). -/
def queueCapacity : Nat := 1000

/-- Progress of a `stop()` call through its statements. -/
inductive StopPhase where
  | idle
  | shutdownQueued
  | signaled
  | joined
  deriving DecidableEq, Repr

/-- Interleaved system state: the `running` flag, the queue length, the
queue's `unfinished_tasks` counter, whether the writer holds a dequeued
entry it has not yet acknowledged with `task_done`, whether the writer
thread is still alive (file handle open), and the stop call's phase. -/
structure Sys where
  running : Bool
  qlen : Nat
  unfinished : Nat
  holding : Bool
  writerAlive : Bool
  stopPhase : StopPhase
  deriving DecidableEq, Repr

/-- One interleaving step of the system. Producer `_log` calls enqueue
only while `running`; `stop` first submits the shutdown entry (still
running), then clears `running`, then returns from `log_queue.join()`
only once `unfinished_tasks = 0`; the writer dequeues, acknowledges with
`task_done`, and exits its loop (closing the file) only after observing
`running = false` with an empty queue. `stop` never joins the writer
thread. -/
inductive SysStep : Sys → Sys → Prop where
  | prodLog (s : Sys) (hr : s.running = true) (hq : s.qlen < queueCapacity) :
      SysStep s { s with qlen := s.qlen + 1, unfinished := s.unfinished + 1 }
  | stopLog (s : Sys) (hp : s.stopPhase = .idle) (hr : s.running = true)
      (hq : s.qlen < queueCapacity) :
      SysStep s { s with
        qlen := s.qlen + 1
        unfinished := s.unfinished + 1
        stopPhase := .shutdownQueued }
  | stopLogFull (s : Sys) (hp : s.stopPhase = .idle) (hr : s.running = true)
      (hq : queueCapacity ≤ s.qlen) :
      SysStep s { s with stopPhase := .shutdownQueued }
  | stopSignal (s : Sys) (hp : s.stopPhase = .shutdownQueued) :
      SysStep s { s with running := false, stopPhase := .signaled }
  | stopJoin (s : Sys) (hp : s.stopPhase = .signaled)
      (hu : s.unfinished = 0) :
      SysStep s { s with stopPhase := .joined }
  | writerTake (s : Sys) (hw : s.writerAlive = true) (hh : s.holding = false)
      (hq : 0 < s.qlen) :
      SysStep s { s with qlen := s.qlen - 1, holding := true }
  | writerDone (s : Sys) (hh : s.holding = true) :
      SysStep s { s with holding := false, unfinished := s.unfinished - 1 }
  | writerExit (s : Sys) (hw : s.writerAlive = true) (hh : s.holding = false)
      (hr : s.running = false) (hq : s.qlen = 0) :
      SysStep s { s with writerAlive := false }

/-- Reachability under interleaving steps. -/
def SysReach : Sys → Sys → Prop := Relation.ReflTransGen SysStep

/-- The system as seen at the moment `stop()` is entered while `RUNNING`:
writer alive, no pending entries (pending producer entries are generated
by `prodLog` steps). -/
def sysInit : Sys :=
  { running := true, qlen := 0, unfinished := 0, holding := false,
    writerAlive := true, stopPhase := .idle }

/-- Inductive invariant: the queue length plus any held entry never
exceeds `unfinished_tasks`; after `stop` has cleared `running` it stays
cleared; and `log_queue.join()` returns only with `unfinished_tasks = 0`. -/
def SysInv (s : Sys) : Prop :=
  s.qlen + (if s.holding then 1 else 0) ≤ s.unfinished ∧
  ((s.stopPhase = .signaled ∨ s.stopPhase = .joined) → s.running = false) ∧
  (s.stopPhase = .joined → s.unfinished = 0)

/-! ## Helper lemmas -/

theorem Dict.get_set_self (d : Dict) (k : String) (v : Value) :
    (d.set k v).get k = some v := by
  induction d with
  | nil => simp [Dict.set, Dict.get]
  | cons kv rest ih =>
      obtain ⟨k1, v1⟩ := kv
      by_cases h : k1 = k
      · simp [Dict.set, Dict.get, h]
      · simp [Dict.set, Dict.get, h, ih]

theorem Dict.get_set_ne (d : Dict) (k key : String) (v : Value)
    (h : k ≠ key) : (d.set k v).get key = d.get key := by
  induction d with
  | nil => simp [Dict.set, Dict.get, h]
  | cons kv rest ih =>
      obtain ⟨k1, v1⟩ := kv
      by_cases h1 : k1 = k
      · subst h1
        simp [Dict.set, Dict.get, h]
      · simp [Dict.set, Dict.get, h1, ih]

/-- With no current cell, stamping adds exactly the three context fields,
whatever `include_cell_info` is. -/
theorem ThreadSafeStructuredLogger.stampEntry_none (ctx : Ctx) (inc : Bool)
    (e : Dict) :
    ThreadSafeStructuredLogger.stampEntry ctx inc none e =
      ((e.set "timestamp" (.str ctx.now)).set "thread_id"
        (.nat ctx.threadId)).set "thread_name" (.str ctx.threadName) := by
  cases inc <;> rfl

/-- While running, the caller-visible entry after `_log` is the stamped
entry, whether or not the queue accepted it. -/
theorem ThreadSafeStructuredLogger.logSubmit_snd (st : LoggerState)
    (ctx : Ctx) (e : Dict) (hr : st.running = true) :
    (ThreadSafeStructuredLogger.logSubmit st ctx e).2 =
      ThreadSafeStructuredLogger.stampEntry ctx st.includeCellInfo
        st.currentCell e := by
  simp only [ThreadSafeStructuredLogger.logSubmit, hr]
  cases st.queue.putNowait
    (ThreadSafeStructuredLogger.stampEntry ctx st.includeCellInfo
      st.currentCell e) <;> simp

/-- One interleaving step preserves the invariant. -/
theorem sysInv_step {s t : Sys} (hs : SysInv s) (h : SysStep s t) :
    SysInv t := by
  obtain ⟨h1, h2, h3⟩ := hs
  cases h with
  | prodLog hr hq =>
      refine ⟨?_, h2, ?_⟩
      · cases hh : s.holding <;> simp [hh] at h1 ⊢ <;> omega
      · intro hj
        have hrf := h2 (Or.inr hj)
        simp [hr] at hrf
  | stopLog hp hr hq =>
      refine ⟨?_, ?_, ?_⟩
      · cases hh : s.holding <;> simp [hh] at h1 ⊢ <;> omega
      · intro hor
        rcases hor with h | h <;> simp at h
      · intro hj
        simp at hj
  | stopLogFull hp hr hq =>
      refine ⟨h1, ?_, ?_⟩
      · intro hor
        rcases hor with h | h <;> simp at h
      · intro hj
        simp at hj
  | stopSignal hp =>
      refine ⟨h1, fun _ => rfl, ?_⟩
      intro hj
      simp at hj
  | stopJoin hp hu =>
      exact ⟨h1, fun _ => h2 (Or.inl hp), fun _ => hu⟩
  | writerTake hw hh hq =>
      refine ⟨?_, h2, h3⟩
      simp [hh] at h1 ⊢
      omega
  | writerDone hh =>
      refine ⟨?_, h2, ?_⟩
      · simp [hh] at h1 ⊢
        omega
      · intro hj
        have h0 := h3 hj
        show s.unfinished - 1 = 0
        omega
  | writerExit hw hh hr hq =>
      exact ⟨h1, h2, h3⟩

/-- The invariant holds in every state reachable from `sysInit`. -/
theorem sysInv_reach {s : Sys} (h : SysReach sysInit s) : SysInv s := by
  induction h with
  | refl => simp [SysInv, sysInit]
  | tail hr hstep ih => exact sysInv_step ih hstep

/-- A reachable state in which `stop()` has returned while the writer
thread is still alive (file still open): shutdown entry queued, `running`
cleared, writer dequeues and acknowledges it, `log_queue.join()` returns
— all before the writer re-checks its loop condition and exits. -/
def sysJoinedAlive : Sys :=
  { running := false, qlen := 0, unfinished := 0, holding := false,
    writerAlive := true, stopPhase := .joined }

theorem sysReach_joinedAlive : SysReach sysInit sysJoinedAlive := by
  have t1 : SysStep sysInit ⟨true, 1, 1, false, true, .shutdownQueued⟩ :=
    SysStep.stopLog sysInit rfl rfl (by decide)
  have t2 : SysStep ⟨true, 1, 1, false, true, .shutdownQueued⟩
      ⟨false, 1, 1, false, true, .signaled⟩ :=
    SysStep.stopSignal _ rfl
  have t3 : SysStep ⟨false, 1, 1, false, true, .signaled⟩
      ⟨false, 0, 1, true, true, .signaled⟩ :=
    SysStep.writerTake _ rfl rfl (by decide)
  have t4 : SysStep ⟨false, 0, 1, true, true, .signaled⟩
      ⟨false, 0, 0, false, true, .signaled⟩ :=
    SysStep.writerDone _ rfl
  have t5 : SysStep ⟨false, 0, 0, false, true, .signaled⟩ sysJoinedAlive :=
    SysStep.stopJoin _ rfl rfl
  exact .head t1 (.head t2 (.head t3 (.head t4 (.single t5))))

/-! ## Concrete states used to instantiate the claims -/

/-- A fixed execution context. -/
def ctx0 : Ctx :=
  { now := "2024-01-01T00:00:00Z", threadId := 7, threadName := "MainThread" }

/-- A logger in the RUNNING state with one spawned writer. -/
def stRunning : LoggerState :=
  { initLogger "notebook.log" with running := true, writerSpawns := 1 }

/-- A freshly constructed (STOPPED) logger. -/
def stFresh : LoggerState := initLogger "notebook.log"

/-- A running logger whose queue (capacity 1) is full. -/
def stFull : LoggerState :=
  { initLogger "notebook.log" with
    running := true
    writerSpawns := 1
    queue := { items := [[("body", Value.str "old")]], maxsize := 1 } }

/-- The state right after `start` on a fresh logger. -/
def stStarted : LoggerState :=
  match ThreadSafeStructuredLogger.start (initLogger "notebook.log") ctx0 true with
  | .ok o => o.state
  | .error _ => initLogger "notebook.log"

/-- The state after `start` followed by two manual `log` calls: three
records accepted in total, zero cells executed. -/
def stAfterLogs : LoggerState :=
  (ThreadSafeStructuredLogger.log
    (ThreadSafeStructuredLogger.log stStarted ctx0 "info" "first" []).1
    ctx0 "warning" "second" []).1

open ThreadSafeStructuredLogger

/-- While running, the queue after `_log` is either unchanged (dropped or
full) or extended by exactly the caller-visible mutated entry — the
enqueued object is the caller's mapping, not a copy. -/
theorem logSubmit_queue_items (st : LoggerState) (ctx : Ctx) (e : Dict) :
    (logSubmit st ctx e).1.queue.items = st.queue.items ∨
    (logSubmit st ctx e).1.queue.items =
      st.queue.items ++ [(logSubmit st ctx e).2] := by
  unfold logSubmit
  split
  · exact Or.inl rfl
  · cases hpn : st.queue.putNowait
        (stampEntry ctx st.includeCellInfo st.currentCell e) with
    | error u => simp [hpn]
    | ok q =>
        simp only [hpn]
        right
        unfold BQueue.putNowait at hpn
        split at hpn
        · exact Except.noConfusion hpn
        · injection hpn with hq
          subst hq
          simp

/-! ## Claim theorems -/

/-- C1 counterexample: with the logger RUNNING, `start` does not raise —
it evaluates to a normal `.ok` return (message printed, state unchanged,
so `writerSpawns` is not incremented), refuting the claimed synchronous
`AlreadyRunning` error. -/
theorem start_running_returns_ok_counterexample :
    start stRunning ctx0 true = .ok ⟨stRunning, ["Logger already running"]⟩ ∧
    (start stRunning ctx0 true).toOption.isSome = true := by
  constructor <;> rfl

/-- C1 (amended): calling `start` while RUNNING returns normally (no
exception is raised): it prints "Logger already running" and leaves the
state unchanged — in particular no second writer thread is spawned. -/
theorem start_running_no_error (st : LoggerState) (ctx : Ctx) (b : Bool)
    (hr : st.running = true) :
    start st ctx b = .ok ⟨st, ["Logger already running"]⟩ := by
  simp [start, hr]

/-- Witness for `start_running_no_error` at a concrete RUNNING state. -/
theorem start_running_no_error_witness :
    start stRunning ctx0 false =
      .ok ⟨stRunning, ["Logger already running"]⟩ :=
  start_running_no_error stRunning ctx0 false rfl

/-- C2 counterexample: with a target file that cannot be opened, `start`
on a fresh (STOPPED) logger still returns normally; the open failure
instead crashes the background writer thread, after `start` has
returned. -/
theorem start_unopenable_ok_counterexample :
    (start stFresh ctx0 false).toOption.isSome = true ∧
    logWriterOpen false = .error .openFailed := by
  constructor <;> rfl

/-- C2 (amended): `start` never consults whether the target file can be
opened — its result is identical for an unopenable file — while the
`open` in `_log_writer`, executed in the spawned background thread,
is where the failure actually surfaces. -/
theorem start_independent_of_file_openability (st : LoggerState) (ctx : Ctx)
    (b : Bool) :
    start st ctx b = start st ctx true ∧
    logWriterOpen false = .error .openFailed :=
  ⟨rfl, rfl⟩

/-- C3 counterexample: an interleaving in which `stop()` has returned
(its `log_queue.join()` completed) while the writer thread is still
alive with the file open — `stop` signals and waits for the drain but
never joins the writer thread. -/
theorem stop_returns_writer_alive_counterexample :
    SysReach sysInit sysJoinedAlive ∧
    sysJoinedAlive.stopPhase = .joined ∧
    sysJoinedAlive.writerAlive = true :=
  ⟨sysReach_joinedAlive, rfl, rfl⟩

/-- C3 (amended): in every reachable interleaving, once `stop()`'s
`log_queue.join()` has returned the queue is fully drained — no queued
entry, no entry held by the writer, `unfinished_tasks = 0`; `stop` does
not, however, wait for the writer thread itself to exit. -/
theorem stop_joined_queue_empty (s : Sys) (h : SysReach sysInit s)
    (hj : s.stopPhase = .joined) :
    s.qlen = 0 ∧ s.unfinished = 0 ∧ s.holding = false := by
  obtain ⟨h1, h2, h3⟩ := sysInv_reach h
  have hu := h3 hj
  refine ⟨?_, hu, ?_⟩
  · cases hh : s.holding <;> simp [hh] at h1 <;> omega
  · cases hh : s.holding
    · rfl
    · exfalso
      simp [hh] at h1
      omega

/-- Witness for `stop_joined_queue_empty` at the concrete reachable
post-`stop` state. -/
theorem stop_joined_queue_empty_witness :
    sysJoinedAlive.qlen = 0 ∧ sysJoinedAlive.unfinished = 0 ∧
      sysJoinedAlive.holding = false :=
  stop_joined_queue_empty sysJoinedAlive sysReach_joinedAlive rfl

/-- C4 counterexample: submitting the empty mapping while RUNNING yields a
record with no severity and no body — only the timestamp and thread
fields are stamped — and a caller-supplied `severity_text` passed through
`log`'s kwargs survives unoverridden. -/
theorem normalize_missing_mandatory_counterexample :
    (logSubmit stRunning ctx0 []).2.get "severity_text" = none ∧
    (logSubmit stRunning ctx0 []).2.get "severity" = none ∧
    (logSubmit stRunning ctx0 []).2.get "body" = none ∧
    (log stRunning ctx0 "info" "m" [("severity_text", Value.str "HACK")]).2.get
      "severity_text" = some (.str "HACK") := by
  decide

/-- C4 (amended): while RUNNING with no current cell, `_log` stamps
exactly `timestamp`, `thread_id` and `thread_name` last from the
execution context, overriding any caller-supplied values for those three
keys, and preserves the caller's value for every other key;
`severity_text` and `body` are not stamped and need not be present. -/
theorem normalize_stamps_context_fields (st : LoggerState) (ctx : Ctx)
    (e : Dict) (k : String) (hr : st.running = true)
    (hc : st.currentCell = none)
    (hk1 : k ≠ "timestamp") (hk2 : k ≠ "thread_id")
    (hk3 : k ≠ "thread_name") :
    (logSubmit st ctx e).2.get "timestamp" = some (.str ctx.now) ∧
    (logSubmit st ctx e).2.get "thread_id" = some (.nat ctx.threadId) ∧
    (logSubmit st ctx e).2.get "thread_name" = some (.str ctx.threadName) ∧
    (logSubmit st ctx e).2.get k = e.get k := by
  rw [logSubmit_snd st ctx e hr, hc, stampEntry_none]
  refine ⟨?_, ?_, ?_, ?_⟩
  · rw [Dict.get_set_ne _ _ _ _ (by decide),
      Dict.get_set_ne _ _ _ _ (by decide), Dict.get_set_self]
  · rw [Dict.get_set_ne _ _ _ _ (by decide), Dict.get_set_self]
  · rw [Dict.get_set_self]
  · rw [Dict.get_set_ne _ _ _ _ (Ne.symm hk3),
      Dict.get_set_ne _ _ _ _ (Ne.symm hk2),
      Dict.get_set_ne _ _ _ _ (Ne.symm hk1)]

/-- Witness for `normalize_stamps_context_fields` at a concrete entry. -/
theorem normalize_stamps_context_fields_witness :
    (logSubmit stRunning ctx0 [("body", Value.str "hello")]).2.get
      "timestamp" = some (.str ctx0.now) ∧
    (logSubmit stRunning ctx0 [("body", Value.str "hello")]).2.get
      "thread_id" = some (.nat ctx0.threadId) ∧
    (logSubmit stRunning ctx0 [("body", Value.str "hello")]).2.get
      "thread_name" = some (.str ctx0.threadName) ∧
    (logSubmit stRunning ctx0 [("body", Value.str "hello")]).2.get "body" =
      Dict.get [("body", Value.str "hello")] "body" :=
  normalize_stamps_context_fields stRunning ctx0 [("body", Value.str "hello")]
    "body" rfl rfl (by decide) (by decide) (by decide)

/-- C5 counterexample: `_log` mutates the caller's mapping — after
submitting `[("body","hi")]` the caller's dict has gained the timestamp
and thread fields, so it is no longer equal to the original. -/
theorem submit_mutates_caller_mapping_counterexample :
    (logSubmit stRunning ctx0 [("body", Value.str "hi")]).2 ≠
      [("body", Value.str "hi")] := by
  decide

/-- C5 (amended): `_log` mutates the caller's mapping in place — after
the call the caller's dict is the stamped record — and whenever the queue
accepts the record, the object enqueued is that same mutated mapping (no
copy is made). -/
theorem submit_aliases_caller_mapping (st : LoggerState) (ctx : Ctx)
    (e : Dict) (hr : st.running = true) :
    (logSubmit st ctx e).2 =
      stampEntry ctx st.includeCellInfo st.currentCell e ∧
    ((logSubmit st ctx e).1.queue.items = st.queue.items ∨
      (logSubmit st ctx e).1.queue.items =
        st.queue.items ++ [(logSubmit st ctx e).2]) :=
  ⟨logSubmit_snd st ctx e hr, logSubmit_queue_items st ctx e⟩

/-- Witness for `submit_aliases_caller_mapping` at a concrete entry. -/
theorem submit_aliases_caller_mapping_witness :
    (logSubmit stRunning ctx0 [("body", Value.str "hi")]).2 =
      stampEntry ctx0 stRunning.includeCellInfo stRunning.currentCell
        [("body", Value.str "hi")] ∧
    ((logSubmit stRunning ctx0 [("body", Value.str "hi")]).1.queue.items =
        stRunning.queue.items ∨
      (logSubmit stRunning ctx0 [("body", Value.str "hi")]).1.queue.items =
        stRunning.queue.items ++
          [(logSubmit stRunning ctx0 [("body", Value.str "hi")]).2]) :=
  submit_aliases_caller_mapping stRunning ctx0 [("body", Value.str "hi")] rfl

/-- C6: submission never blocks the producer and, when the queue is full,
silently drops the newest record: the logger state is unchanged and no
error reaches the caller — `_log` is a total function and the `Full`
exception from `put_nowait` is swallowed by `except: pass`. -/
theorem submit_full_drops_newest (st : LoggerState) (ctx : Ctx) (e : Dict)
    (hpos : 0 < st.queue.maxsize)
    (hfull : st.queue.maxsize ≤ st.queue.items.length) :
    (logSubmit st ctx e).1 = st := by
  unfold logSubmit
  split
  · rfl
  · have hpn : st.queue.putNowait
        (stampEntry ctx st.includeCellInfo st.currentCell e) = .error () := by
      unfold BQueue.putNowait
      rw [if_pos ⟨hpos, hfull⟩]
    simp [hpn]

/-- Witness for `submit_full_drops_newest` on a full capacity-1 queue. -/
theorem submit_full_drops_newest_witness :
    (logSubmit stFull ctx0 [("body", Value.str "new")]).1 = stFull :=
  submit_full_drops_newest stFull ctx0 [("body", Value.str "new")]
    (by decide) (by decide)

/-- C7 counterexample: writing "hi \n" to the captured stdout yields one
submitted record whose `source` is "print" (not "stream"), which has no
`stream_name` key (the key used is `stream`), and whose body is "hi" —
the trailing space was stripped along with the newline, not just the
newline — while the text is still forwarded verbatim. -/
theorem stream_capture_fields_counterexample :
    (PrintCapture.write "stdout" ctx0 "hi \n").submitted.length = 1 ∧
    ((PrintCapture.write "stdout" ctx0 "hi \n").submitted.headD []).get
      "source" = some (.str "print") ∧
    ((PrintCapture.write "stdout" ctx0 "hi \n").submitted.headD []).get
      "stream_name" = none ∧
    ((PrintCapture.write "stdout" ctx0 "hi \n").submitted.headD []).get
      "body" = some (.str "hi") ∧
    (PrintCapture.write "stdout" ctx0 "hi \n").forwarded = ["hi \n"] := by
  refine ⟨rfl, rfl, rfl, rfl, rfl⟩

/-- C7 (amended): every `write(text)` forwards `text` verbatim to the
original stream and flushes it once; when `text` is non-blank after
stripping, exactly one record is submitted, with severity ERROR for the
"stderr" wrapper and INFO otherwise, body `text.rstrip()` (all trailing
whitespace removed, not only a newline), `source = "print"`, and the
stream name stored under the key `stream`. -/
theorem stream_capture_write_spec (streamName : String) (ctx : Ctx)
    (text : String) (hne : text ≠ "") (hnb : pyStrip text ≠ "") :
    (PrintCapture.write streamName ctx text).forwarded = [text] ∧
    (PrintCapture.write streamName ctx text).flushed = 1 ∧
    (PrintCapture.write streamName ctx text).submitted =
      [[("severity_text",
          Value.str (if streamName = "stderr" then "ERROR" else "INFO")),
        ("body", Value.str (pyRstrip text)),
        ("source", Value.str "print"),
        ("stream", Value.str streamName),
        ("timestamp", Value.str ctx.now)]] := by
  refine ⟨rfl, rfl, ?_⟩
  simp [PrintCapture.write, hne, hnb]

/-- Witness for `stream_capture_write_spec` on a concrete stdout write. -/
theorem stream_capture_write_spec_witness :
    (PrintCapture.write "stdout" ctx0 "hello\n").forwarded = ["hello\n"] ∧
    (PrintCapture.write "stdout" ctx0 "hello\n").flushed = 1 ∧
    (PrintCapture.write "stdout" ctx0 "hello\n").submitted =
      [[("severity_text",
          Value.str (if "stdout" = "stderr" then "ERROR" else "INFO")),
        ("body", Value.str (pyRstrip "hello\n")),
        ("source", Value.str "print"),
        ("stream", Value.str "stdout"),
        ("timestamp", Value.str ctx0.now)]] :=
  stream_capture_write_spec "stdout" ctx0 "hello\n" (by decide) (by decide)

/-- C8 counterexample: an I/O error while writing a single record leaves
the Writer loop running but emits nothing at all — no diagnostic-stream
warning exists in the code (and `task_done` is skipped for the lost
record). -/
theorem writer_ioerror_silent_counterexample :
    (writerIterWrite [("body", Value.str "x")] .ioError).crashed = false ∧
    (writerIterWrite [("body", Value.str "x")] .ioError).diagnostics = [] ∧
    (writerIterWrite [("body", Value.str "x")] .ioError).taskDoneCalled =
      false :=
  ⟨rfl, rfl, rfl⟩

/-- C8 (amended): no write outcome ever terminates the Writer — the bare
`except: continue` absorbs every failure — but the failure is swallowed
silently: no diagnostic output is produced on any stream. -/
theorem writer_ioerror_never_fatal_no_diagnostic (e : Dict)
    (res : IOResult) :
    (writerIterWrite e res).crashed = false ∧
    (writerIterWrite e res).diagnostics = [] := by
  cases res <;> exact ⟨rfl, rfl⟩

/-- C9 counterexample: after a run in which three records were accepted,
the shutdown record submitted by `stop` carries `total_cells = 0` (the
cell counter) and contains no field equal to the accepted-record
count 3. -/
theorem shutdown_record_no_accepted_count_counterexample :
    stAfterLogs.acceptedCount = 3 ∧
    ((stop stAfterLogs ctx0).shutdownSubmitted.getD []).get "total_cells" =
      some (.nat 0) ∧
    Value.nat 3 ∉
      ((stop stAfterLogs ctx0).shutdownSubmitted.getD []).map Prod.snd := by
  decide

/-- C9 (amended): the shutdown record submitted by `stop` while RUNNING
is the stamped `shutdownEntry`, whose count field is `total_cells`, the
number of executed cells (`cell_count`); the source keeps no counter of
accepted records. -/
theorem shutdown_record_counts_cells (st : LoggerState) (ctx : Ctx)
    (hr : st.running = true) :
    (stop st ctx).shutdownSubmitted =
      some (stampEntry ctx st.includeCellInfo st.currentCell
        (shutdownEntry st ctx)) ∧
    (shutdownEntry st ctx).get "total_cells" = some (.nat st.cellCount) := by
  constructor
  · have hs := logSubmit_snd st ctx (shutdownEntry st ctx) hr
    simp [stop, hr, hs]
  · rfl

/-- Witness for `shutdown_record_counts_cells` at a concrete run. -/
theorem shutdown_record_counts_cells_witness :
    (stop stAfterLogs ctx0).shutdownSubmitted =
      some (stampEntry ctx0 stAfterLogs.includeCellInfo
        stAfterLogs.currentCell (shutdownEntry stAfterLogs ctx0)) ∧
    (shutdownEntry stAfterLogs ctx0).get "total_cells" =
      some (.nat stAfterLogs.cellCount) :=
  shutdown_record_counts_cells stAfterLogs ctx0 rfl

/-- C10: `start_logging` ignores its `log_file` parameter entirely; when
`LIVE_LOGS_FILE_PATH` is unset or empty it returns `None` without
creating or starting a logger; and when the variable is set non-empty
with no singleton present, the logger it creates and starts targets the
environment path. -/
theorem start_logging_env_driven (envVal : Option String) (a b p : String)
    (existing : Option LoggerState) (ctx : Ctx) :
    start_logging envVal a existing ctx =
      start_logging envVal b existing ctx ∧
    (pyGetenv envVal "" = "" → start_logging envVal a existing ctx = none) ∧
    (envVal = some p → p ≠ "" →
      start_logging envVal a none ctx =
        some (start (initLogger p) ctx true) ∧
      (initLogger p).logFile = p) := by
  refine ⟨rfl, ?_, ?_⟩
  · intro h
    simp [start_logging, h]
  · rintro rfl hp
    refine ⟨?_, rfl⟩
    simp [start_logging, pyGetenv, get_logger, hp]

/-- Witness for `start_logging_env_driven` with the variable set. -/
theorem start_logging_env_driven_witness :
    start_logging (some "live.log") "x" none ctx0 =
      start_logging (some "live.log") "y" none ctx0 ∧
    (pyGetenv (some "live.log") "" = "" →
      start_logging (some "live.log") "x" none ctx0 = none) ∧
    (some "live.log" = some "live.log" → "live.log" ≠ "" →
      start_logging (some "live.log") "x" none ctx0 =
        some (start (initLogger "live.log") ctx0 true) ∧
      (initLogger "live.log").logFile = "live.log") :=
  start_logging_env_driven (some "live.log") "x" "y" "live.log" none ctx0

end LiveLogs
